import Mathlib

/-!
Shallow embedding of the attendance reconciliation engine of
`backend/attendance_core/compute.py` (functions `build_attendance` and
`calculate_summary`), together with the helper `clamp` from
`backend/attendance_core/utils.py` and the record shapes from
`backend/models.py`.

Modelling conventions:
* A Python `datetime` is an integer number of minutes since a fixed epoch
  midnight (`ℤ`).  `d.date()` becomes `dayOf` (floor division by 1440) and
  `d.time()` becomes `timeOf` (Euclidean remainder by 1440); comparing two
  `time` values agrees with comparing the remainders.  `timedelta(days=1)`
  is `+ 1440`, `timedelta(minutes=m)` is `+ m`.  Note that the code line
  `actual_out.replace(year=…, month=…, day=…)` keeps the very same fields,
  so the whole expression on lines 77–81 is exactly `actual_out + 1 day`.
* Python floats are modelled as exact rationals (`ℚ`);
  `timedelta.total_seconds() / 60` on minute-valued datetimes is the exact
  integer difference cast to `ℚ`.  `round(x, 2)` is modelled as rounding to
  the nearest multiple of 1/100 with ties to even (`round2`).
* A pandas `DataFrame` is a list of rows; `df[df[date] == d]` is
  `List.filter`, `.iloc[0]` on a non-empty frame is `List.head?`,
  `df.iterrows()` is iteration in list order.
* `None`-able cells are `Option ℤ`; Python truthiness of a datetime cell
  (`if actual_in:`) is `Option.isSome`, since datetimes are always truthy.
-/

/-- Calendar date of a minute timestamp: floor division by minutes-per-day,
matching Python `datetime.date()` ordering. -/
def dayOf (t : ℤ) : ℤ := Int.fdiv t 1440

/-- Time-of-day of a minute timestamp in `[0, 1440)`, matching Python
`datetime.time()` ordering. -/
def timeOf (t : ℤ) : ℤ := Int.emod t 1440

/-- `clamp` from `backend/attendance_core/utils.py`:
`max(min_val, min(value, max_val))`. -/
def clamp (value min_val max_val : ℚ) : ℚ := max min_val (min value max_val)

/-- Round a rational to the nearest integer, ties to even — the behaviour of
Python `round` on an exact value. -/
def roundHalfEven (x : ℚ) : ℤ :=
  if x - (⌊x⌋ : ℚ) < 1 / 2 then ⌊x⌋
  else if 1 / 2 < x - (⌊x⌋ : ℚ) then ⌊x⌋ + 1
  else if ⌊x⌋ % 2 = 0 then ⌊x⌋ else ⌊x⌋ + 1

/-- Python `round(x, 2)`: round to the nearest multiple of 1/100, ties to
even. -/
def round2 (x : ℚ) : ℚ := ((roundHalfEven (x * 100) : ℤ) : ℚ) / 100

/-- Shift type, `Literal["AM", "PM"]` in `backend/models.py`. -/
inductive ShiftType
  | AM
  | PM
deriving DecidableEq, Repr

/-- One row of the punch table: `{date, in1, out1, in2, out2}`. -/
structure PunchRow where
  date : ℤ
  in1 : Option ℤ
  out1 : Option ℤ
  in2 : Option ℤ
  out2 : Option ℤ
deriving DecidableEq, Repr

/-- One row of the schedule table:
`{date, shift_type, sched_start_dt, sched_end_dt}`. -/
structure SchedRow where
  date : ℤ
  shift_type : ShiftType
  sched_start_dt : ℤ
  sched_end_dt : ℤ
deriving DecidableEq, Repr

/-- The two policy fields the engine reads (`backend/models.py`,
`PolicyConfig.tardy_minutes` and `PolicyConfig.early_minutes`). -/
structure PolicyConfig where
  tardy_minutes : ℤ
  early_minutes : ℤ
deriving DecidableEq, Repr

/-- `DayRecord` from `backend/models.py`. -/
structure DayRecord where
  date : ℤ
  shift_type : ShiftType
  sched_start_dt : ℤ
  sched_end_dt : ℤ
  actual_in : Option ℤ
  actual_out : Option ℤ
  actual_out1 : Option ℤ
  actual_in2 : Option ℤ
  sched_minutes : ℚ
  worked_minutes : ℚ
  worked_minutes_clipped : ℚ
  attendance_fraction : ℚ
  present : Bool
  tardy : Bool
  early_dismissal : Bool
deriving DecidableEq, Repr

/-- `Summary` from `backend/models.py`. -/
structure Summary where
  scheduled_shifts : ℕ
  shifts_worked : ℕ
  attendance_pct_shifts : ℚ
  scheduled_hours : ℚ
  worked_hours : ℚ
  attendance_pct_hours : ℚ
  tardy_count : ℕ
  early_dismissal_count : ℕ
deriving DecidableEq, Repr

/-- The punch-dependent part of the loop body of `build_attendance`
(`compute.py` lines 47–102): the actual-time fields after cross-midnight
normalisation, the uncapped worked minutes, and presence, computed from the
selected punch row (`none` when no punch matched the date). -/
structure PunchFacts where
  actual_in : Option ℤ
  actual_out : Option ℤ
  actual_out1 : Option ℤ
  actual_in2 : Option ℤ
  worked_minutes : ℚ
  present : Bool
deriving DecidableEq, Repr

/-- `compute.py` lines 47–102, for one scheduled shift. -/
def punchFacts (sched_start_dt sched_end_dt : ℤ) (m : Option PunchRow) : PunchFacts :=
  match m with
  | none => ⟨none, none, none, none, 0, false⟩
  | some punch_row =>
    let actual_in := punch_row.in1
    let actual_out := punch_row.out2
    let actual_out1 := punch_row.out1
    let actual_in2 := punch_row.in2
    let present := actual_in.isSome
    -- `if present and actual_out is not None:` (line 69)
    match actual_in, actual_out with
    | some tin, some tout0 =>
      -- line 71: `sched_end_dt.date() > sched_start_dt.date()`
      let cross_midnight : Bool := decide (dayOf sched_start_dt < dayOf sched_end_dt)
      -- lines 75–81: advance the out-punch one day
      let tout :=
        if cross_midnight && decide (timeOf tout0 < timeOf tin) then tout0 + 1440
        else tout0
      -- lines 85–87: advance the lunch in-punch one day
      let actual_in2 :=
        if cross_midnight then
          match actual_out1, actual_in2 with
          | some tl1, some tl2 =>
            if timeOf tl2 < timeOf tl1 then some (tl2 + 1440) else some tl2
          | _, _ => actual_in2
        else actual_in2
      -- lines 89–95: lunch minutes
      let lunch_minutes : ℚ :=
        match actual_out1, actual_in2 with
        | some tl1, some tl2 =>
          let lunch_duration : ℤ := tl2 - tl1
          if 0 < lunch_duration then max 0 ((lunch_duration : ℚ)) else 0
        | _, _ => 0
      -- lines 97–100: worked minutes
      let total_minutes : ℚ := ((tout - tin : ℤ) : ℚ)
      let worked_minutes := max 0 (total_minutes - lunch_minutes)
      ⟨actual_in, some tout, actual_out1, actual_in2, worked_minutes, present⟩
    | _, _ => ⟨actual_in, actual_out, actual_out1, actual_in2, 0, present⟩

/-- The duplicate-punch warning of `compute.py` line 58. -/
def dupWarning (shift_date : ℤ) : String :=
  "Multiple punch records found for " ++ toString shift_date ++ ", using first one"

/-- The loop body of `build_attendance` (`compute.py` lines 35–144) for one
schedule row: the produced `DayRecord` and the warnings appended for this
row. -/
def processShift (punch_df : List PunchRow) (config : PolicyConfig) (sched_row : SchedRow) :
    DayRecord × List String :=
  let sched_minutes : ℚ := ((sched_row.sched_end_dt - sched_row.sched_start_dt : ℤ) : ℚ)
  -- line 45: `punch_df[punch_df[date] == shift_date]`
  let punch_matches := punch_df.filter fun pr => decide (pr.date = sched_row.date)
  -- lines 57–58
  let warn : List String :=
    if 1 < punch_matches.length then [dupWarning sched_row.date] else []
  -- line 60: `punch_matches.iloc[0]`, then lines 62–102
  let facts := punchFacts sched_row.sched_start_dt sched_row.sched_end_dt punch_matches.head?
  -- lines 104–111: tardy
  let tardy := facts.present &&
    (match facts.actual_in with
     | some tin => decide (sched_row.sched_start_dt + config.tardy_minutes < tin)
     | none => false)
  -- lines 113–115: early dismissal
  let early_dismissal := facts.present &&
    (match facts.actual_out with
     | some tout => decide (tout < sched_row.sched_end_dt - config.early_minutes)
     | none => false)
  -- line 118
  let worked_minutes_clipped := clamp facts.worked_minutes 0 sched_minutes
  -- line 121
  let attendance_fraction :=
    if 0 < sched_minutes then worked_minutes_clipped / sched_minutes else 0
  ({ date := sched_row.date
     shift_type := sched_row.shift_type
     sched_start_dt := sched_row.sched_start_dt
     sched_end_dt := sched_row.sched_end_dt
     actual_in := facts.actual_in
     actual_out := facts.actual_out
     actual_out1 := facts.actual_out1
     actual_in2 := facts.actual_in2
     sched_minutes := sched_minutes
     worked_minutes := facts.worked_minutes
     worked_minutes_clipped := worked_minutes_clipped
     attendance_fraction := attendance_fraction
     present := facts.present
     tardy := tardy
     early_dismissal := early_dismissal }, warn)

/-- `calculate_summary` (`compute.py` lines 153–188). -/
def calculate_summary (day_records : List DayRecord) : Summary :=
  if day_records.isEmpty then
    { scheduled_shifts := 0
      shifts_worked := 0
      attendance_pct_shifts := 0
      scheduled_hours := 0
      worked_hours := 0
      attendance_pct_hours := 0
      tardy_count := 0
      early_dismissal_count := 0 }
  else
    let scheduled_shifts := day_records.length
    let shifts_worked := day_records.countP fun r => r.present
    let tardy_count := day_records.countP fun r => r.tardy
    let early_dismissal_count := day_records.countP fun r => r.early_dismissal
    let scheduled_hours : ℚ := (day_records.map fun r => r.sched_minutes).sum / 60
    let worked_hours : ℚ := (day_records.map fun r => r.worked_minutes_clipped).sum / 60
    let attendance_pct_shifts : ℚ :=
      if 0 < scheduled_shifts then (shifts_worked : ℚ) / (scheduled_shifts : ℚ) * 100 else 0
    let attendance_pct_hours : ℚ :=
      if 0 < scheduled_hours then worked_hours / scheduled_hours * 100 else 0
    { scheduled_shifts := scheduled_shifts
      shifts_worked := shifts_worked
      attendance_pct_shifts := round2 attendance_pct_shifts
      scheduled_hours := round2 scheduled_hours
      worked_hours := round2 worked_hours
      attendance_pct_hours := round2 attendance_pct_hours
      tardy_count := tardy_count
      early_dismissal_count := early_dismissal_count }

/-- `build_attendance` (`compute.py` lines 10–151): the per-shift loop is a
map over the schedule rows in input order, collecting the per-row warnings
in the same order. -/
def build_attendance (punch_df : List PunchRow) (schedule_df : List SchedRow)
    (config : PolicyConfig) : List DayRecord × Summary × List String :=
  let day_records := schedule_df.map fun sr => (processShift punch_df config sr).1
  let warnings := schedule_df.flatMap fun sr => (processShift punch_df config sr).2
  (day_records, calculate_summary day_records, warnings)

/-! ### Facts about the rounding helper -/

lemma floor_le_roundHalfEven (x : ℚ) : ⌊x⌋ ≤ roundHalfEven x := by
  unfold roundHalfEven
  split_ifs <;> omega

lemma roundHalfEven_le_floor_add_one (x : ℚ) : roundHalfEven x ≤ ⌊x⌋ + 1 := by
  unfold roundHalfEven
  split_ifs <;> omega

lemma roundHalfEven_mono {x y : ℚ} (h : x ≤ y) : roundHalfEven x ≤ roundHalfEven y := by
  have hf : ⌊x⌋ ≤ ⌊y⌋ := Int.floor_le_floor h
  rcases eq_or_lt_of_le hf with heq | hlt
  · have hq : ((⌊x⌋ : ℤ) : ℚ) = ((⌊y⌋ : ℤ) : ℚ) := by exact_mod_cast heq
    have hr : x - ((⌊x⌋ : ℤ) : ℚ) ≤ y - ((⌊y⌋ : ℤ) : ℚ) := by
      rw [← hq]
      exact sub_le_sub_right h _
    unfold roundHalfEven
    split_ifs <;> first | omega | (exfalso; linarith)
  · calc roundHalfEven x ≤ ⌊x⌋ + 1 := roundHalfEven_le_floor_add_one x
      _ ≤ ⌊y⌋ := hlt
      _ ≤ roundHalfEven y := floor_le_roundHalfEven y

lemma round2_mono {x y : ℚ} (h : x ≤ y) : round2 x ≤ round2 y := by
  unfold round2
  have hm : roundHalfEven (x * 100) ≤ roundHalfEven (y * 100) :=
    roundHalfEven_mono (by linarith)
  have : ((roundHalfEven (x * 100) : ℤ) : ℚ) ≤ ((roundHalfEven (y * 100) : ℤ) : ℚ) := by
    exact_mod_cast hm
  linarith

lemma round2_eq_of_lt_half (x : ℚ) (n : ℤ) (h1 : (n : ℚ) ≤ x * 100)
    (h2 : x * 100 - n < 1 / 2) : round2 x = (n : ℚ) / 100 := by
  have hf : ⌊x * 100⌋ = n := Int.floor_eq_iff.mpr ⟨h1, by linarith⟩
  unfold round2 roundHalfEven
  rw [hf, if_pos h2]

lemma round2_eq_of_gt_half (x : ℚ) (n : ℤ) (h1 : (n : ℚ) ≤ x * 100)
    (h2 : 1 / 2 < x * 100 - n) (h3 : x * 100 < n + 1) : round2 x = ((n + 1 : ℤ) : ℚ) / 100 := by
  have hf : ⌊x * 100⌋ = n := Int.floor_eq_iff.mpr ⟨h1, h3⟩
  unfold round2 roundHalfEven
  rw [hf, if_neg (by linarith), if_pos h2]

lemma round2_zero : round2 0 = 0 := by
  have := round2_eq_of_lt_half 0 0 (by norm_num) (by norm_num)
  simpa using this

lemma round2_hundred : round2 100 = 100 := by
  have := round2_eq_of_lt_half 100 10000 (by norm_num) (by norm_num)
  rw [this]
  norm_num

lemma round2_nonneg {x : ℚ} (h : 0 ≤ x) : 0 ≤ round2 x := by
  have := round2_mono h
  rwa [round2_zero] at this

lemma round2_le_hundred {x : ℚ} (h : x ≤ 100) : round2 x ≤ 100 := by
  have := round2_mono h
  rwa [round2_hundred] at this

/-! ### Structural facts about the per-shift computation -/

lemma punchFacts_actual_in (a b : ℤ) (m : Option PunchRow) :
    (punchFacts a b m).actual_in = m.bind fun q => q.in1 := by
  rcases m with _ | pr
  · rfl
  · rcases h1 : pr.in1 with _ | tin <;> rcases h2 : pr.out2 with _ | tout <;>
      simp [punchFacts, h1, h2]

lemma punchFacts_actual_out1 (a b : ℤ) (m : Option PunchRow) :
    (punchFacts a b m).actual_out1 = m.bind fun q => q.out1 := by
  rcases m with _ | pr
  · rfl
  · rcases h1 : pr.in1 with _ | tin <;> rcases h2 : pr.out2 with _ | tout <;>
      simp [punchFacts, h1, h2]

lemma punchFacts_present (a b : ℤ) (m : Option PunchRow) :
    (punchFacts a b m).present = (m.bind fun q => q.in1).isSome := by
  rcases m with _ | pr
  · rfl
  · rcases h1 : pr.in1 with _ | tin <;> rcases h2 : pr.out2 with _ | tout <;>
      simp [punchFacts, h1, h2]

lemma processShift_fst_eq (punch_df : List PunchRow) (config : PolicyConfig)
    (sched_row : SchedRow) :
    (processShift punch_df config sched_row).1 =
      { date := sched_row.date
        shift_type := sched_row.shift_type
        sched_start_dt := sched_row.sched_start_dt
        sched_end_dt := sched_row.sched_end_dt
        actual_in := (punchFacts sched_row.sched_start_dt sched_row.sched_end_dt
          ((punch_df.filter fun pr => decide (pr.date = sched_row.date)).head?)).actual_in
        actual_out := (punchFacts sched_row.sched_start_dt sched_row.sched_end_dt
          ((punch_df.filter fun pr => decide (pr.date = sched_row.date)).head?)).actual_out
        actual_out1 := (punchFacts sched_row.sched_start_dt sched_row.sched_end_dt
          ((punch_df.filter fun pr => decide (pr.date = sched_row.date)).head?)).actual_out1
        actual_in2 := (punchFacts sched_row.sched_start_dt sched_row.sched_end_dt
          ((punch_df.filter fun pr => decide (pr.date = sched_row.date)).head?)).actual_in2
        sched_minutes := ((sched_row.sched_end_dt - sched_row.sched_start_dt : ℤ) : ℚ)
        worked_minutes := (punchFacts sched_row.sched_start_dt sched_row.sched_end_dt
          ((punch_df.filter fun pr => decide (pr.date = sched_row.date)).head?)).worked_minutes
        worked_minutes_clipped := clamp
          (punchFacts sched_row.sched_start_dt sched_row.sched_end_dt
            ((punch_df.filter fun pr => decide (pr.date = sched_row.date)).head?)).worked_minutes
          0 ((sched_row.sched_end_dt - sched_row.sched_start_dt : ℤ) : ℚ)
        attendance_fraction :=
          if 0 < ((sched_row.sched_end_dt - sched_row.sched_start_dt : ℤ) : ℚ) then
            clamp (punchFacts sched_row.sched_start_dt sched_row.sched_end_dt
              ((punch_df.filter fun pr => decide (pr.date = sched_row.date)).head?)).worked_minutes
              0 ((sched_row.sched_end_dt - sched_row.sched_start_dt : ℤ) : ℚ) /
              ((sched_row.sched_end_dt - sched_row.sched_start_dt : ℤ) : ℚ)
          else 0
        present := (punchFacts sched_row.sched_start_dt sched_row.sched_end_dt
          ((punch_df.filter fun pr => decide (pr.date = sched_row.date)).head?)).present
        tardy := (punchFacts sched_row.sched_start_dt sched_row.sched_end_dt
          ((punch_df.filter fun pr => decide (pr.date = sched_row.date)).head?)).present &&
          (match (punchFacts sched_row.sched_start_dt sched_row.sched_end_dt
            ((punch_df.filter fun pr => decide (pr.date = sched_row.date)).head?)).actual_in with
           | some tin => decide (sched_row.sched_start_dt + config.tardy_minutes < tin)
           | none => false)
        early_dismissal := (punchFacts sched_row.sched_start_dt sched_row.sched_end_dt
          ((punch_df.filter fun pr => decide (pr.date = sched_row.date)).head?)).present &&
          (match (punchFacts sched_row.sched_start_dt sched_row.sched_end_dt
            ((punch_df.filter fun pr => decide (pr.date = sched_row.date)).head?)).actual_out with
           | some tout => decide (tout < sched_row.sched_end_dt - config.early_minutes)
           | none => false) } := rfl

lemma processShift_snd_eq (punch_df : List PunchRow) (config : PolicyConfig)
    (sched_row : SchedRow) :
    (processShift punch_df config sched_row).2 =
      if 1 < (punch_df.filter fun pr => decide (pr.date = sched_row.date)).length then
        [dupWarning sched_row.date]
      else [] := rfl

lemma processShift_tardy_imp_present (punch_df : List PunchRow) (config : PolicyConfig)
    (sched_row : SchedRow)
    (h : ((processShift punch_df config sched_row).1).tardy = true) :
    ((processShift punch_df config sched_row).1).present = true := by
  rw [processShift_fst_eq] at h ⊢
  dsimp only at h ⊢
  simp only [Bool.and_eq_true] at h
  exact h.1

lemma processShift_early_imp_present (punch_df : List PunchRow) (config : PolicyConfig)
    (sched_row : SchedRow)
    (h : ((processShift punch_df config sched_row).1).early_dismissal = true) :
    ((processShift punch_df config sched_row).1).present = true := by
  rw [processShift_fst_eq] at h ⊢
  dsimp only at h ⊢
  simp only [Bool.and_eq_true] at h
  exact h.1

lemma processShift_wmc_nonneg (punch_df : List PunchRow) (config : PolicyConfig)
    (sched_row : SchedRow) :
    0 ≤ ((processShift punch_df config sched_row).1).worked_minutes_clipped := by
  rw [processShift_fst_eq]
  dsimp only
  exact le_max_left 0 _

lemma processShift_sched_minutes_pos (punch_df : List PunchRow) (config : PolicyConfig)
    (sched_row : SchedRow) (h : sched_row.sched_start_dt < sched_row.sched_end_dt) :
    0 < ((processShift punch_df config sched_row).1).sched_minutes := by
  rw [processShift_fst_eq]
  dsimp only
  exact_mod_cast sub_pos.mpr h

lemma processShift_wmc_le (punch_df : List PunchRow) (config : PolicyConfig)
    (sched_row : SchedRow) (h : sched_row.sched_start_dt < sched_row.sched_end_dt) :
    ((processShift punch_df config sched_row).1).worked_minutes_clipped ≤
      ((processShift punch_df config sched_row).1).sched_minutes := by
  have hsm := processShift_sched_minutes_pos punch_df config sched_row h
  rw [processShift_fst_eq] at hsm ⊢
  dsimp only at hsm ⊢
  simp only [clamp]
  exact max_le hsm.le (min_le_right _ _)

lemma processShift_frac_eq (punch_df : List PunchRow) (config : PolicyConfig) (s : SchedRow) :
    ((processShift punch_df config s).1).attendance_fraction =
      if 0 < ((processShift punch_df config s).1).sched_minutes then
        ((processShift punch_df config s).1).worked_minutes_clipped /
          ((processShift punch_df config s).1).sched_minutes
      else 0 := rfl

lemma calculate_summary_nil : calculate_summary [] = ⟨0, 0, 0, 0, 0, 0, 0, 0⟩ := rfl

lemma calculate_summary_eq (records : List DayRecord) (h : records ≠ []) :
    calculate_summary records =
      { scheduled_shifts := records.length
        shifts_worked := records.countP fun r => r.present
        attendance_pct_shifts := round2 (if 0 < records.length then
          ((records.countP fun r => r.present : ℕ) : ℚ) / ((records.length : ℕ) : ℚ) * 100
          else 0)
        scheduled_hours := round2 ((records.map fun r => r.sched_minutes).sum / 60)
        worked_hours := round2 ((records.map fun r => r.worked_minutes_clipped).sum / 60)
        attendance_pct_hours := round2
          (if 0 < (records.map fun r => r.sched_minutes).sum / 60 then
            ((records.map fun r => r.worked_minutes_clipped).sum / 60) /
              ((records.map fun r => r.sched_minutes).sum / 60) * 100
          else 0)
        tardy_count := records.countP fun r => r.tardy
        early_dismissal_count := records.countP fun r => r.early_dismissal } := by
  unfold calculate_summary
  rw [if_neg (by simpa [List.isEmpty_iff] using h)]

/-! ### Claims -/

/-- C2: for every scheduled shift, the produced DayRecord satisfies
`0 ≤ worked_minutes_clipped`; when `scheduled_end > scheduled_start` also
`worked_minutes_clipped ≤ sched_minutes` and
`attendance_fraction = worked_minutes_clipped / sched_minutes ∈ [0, 1]`;
and a zero-length scheduled window yields `attendance_fraction = 0` rather
than a division error. -/
theorem claim_C2 (punch_df : List PunchRow) (config : PolicyConfig) (s : SchedRow) :
    0 ≤ ((processShift punch_df config s).1).worked_minutes_clipped ∧
    (s.sched_start_dt < s.sched_end_dt →
      ((processShift punch_df config s).1).worked_minutes_clipped ≤
        ((processShift punch_df config s).1).sched_minutes ∧
      ((processShift punch_df config s).1).attendance_fraction =
        ((processShift punch_df config s).1).worked_minutes_clipped /
          ((processShift punch_df config s).1).sched_minutes ∧
      0 ≤ ((processShift punch_df config s).1).attendance_fraction ∧
      ((processShift punch_df config s).1).attendance_fraction ≤ 1) ∧
    (((processShift punch_df config s).1).sched_minutes = 0 →
      ((processShift punch_df config s).1).attendance_fraction = 0) := by
  refine ⟨processShift_wmc_nonneg _ _ _, fun h => ?_, fun h0 => ?_⟩
  · have hpos := processShift_sched_minutes_pos punch_df config s h
    have hle := processShift_wmc_le punch_df config s h
    have hnn := processShift_wmc_nonneg punch_df config s
    have hfrac := processShift_frac_eq punch_df config s
    rw [if_pos hpos] at hfrac
    exact ⟨hle, hfrac, hfrac ▸ div_nonneg hnn hpos.le, hfrac ▸ (div_le_one hpos).mpr hle⟩
  · have hfrac := processShift_frac_eq punch_df config s
    rw [if_neg (by rw [h0]; exact lt_irrefl 0)] at hfrac
    exact hfrac

theorem claim_C2_witness :
    (0 ≤ ((processShift [] ⟨5, 15⟩ ⟨0, .AM, 585, 990⟩).1).worked_minutes_clipped ∧
     ((processShift [] ⟨5, 15⟩ ⟨0, .AM, 585, 990⟩).1).worked_minutes_clipped ≤
       ((processShift [] ⟨5, 15⟩ ⟨0, .AM, 585, 990⟩).1).sched_minutes) ∧
    ((processShift [] ⟨5, 15⟩ ⟨0, .AM, 990, 990⟩).1).attendance_fraction = 0 :=
  ⟨⟨(claim_C2 [] ⟨5, 15⟩ ⟨0, .AM, 585, 990⟩).1,
    ((claim_C2 [] ⟨5, 15⟩ ⟨0, .AM, 585, 990⟩).2.1 (by decide)).1⟩,
   (claim_C2 [] ⟨5, 15⟩ ⟨0, .AM, 990, 990⟩).2.2
     (by rw [processShift_fst_eq]; dsimp only; norm_num)⟩

/-- C3: `build_attendance` is total, and the DayRecord sequence it returns
has exactly one record per schedule row, in schedule order, each carrying
the date, shift type of that row, scheduled start and scheduled end. -/
theorem claim_C3 (punch_df : List PunchRow) (schedule_df : List SchedRow)
    (config : PolicyConfig) :
    ((build_attendance punch_df schedule_df config).1).length = schedule_df.length ∧
    ((build_attendance punch_df schedule_df config).1).map
        (fun r => (r.date, r.shift_type, r.sched_start_dt, r.sched_end_dt)) =
      schedule_df.map fun s => (s.date, s.shift_type, s.sched_start_dt, s.sched_end_dt) := by
  constructor
  · simp [build_attendance]
  · simp only [build_attendance, List.map_map]
    exact List.map_congr_left fun s _ => rfl

/-- C5: a scheduled shift whose date matches no punch row yields a
DayRecord with `present`, `tardy` and `early_dismissal` false,
`worked_minutes = 0`, and all four actual-time fields unset. -/
theorem claim_C5 (punch_df : List PunchRow) (config : PolicyConfig) (s : SchedRow)
    (hm : punch_df.filter (fun q => decide (q.date = s.date)) = []) :
    ((processShift punch_df config s).1).present = false ∧
    ((processShift punch_df config s).1).tardy = false ∧
    ((processShift punch_df config s).1).early_dismissal = false ∧
    ((processShift punch_df config s).1).worked_minutes = 0 ∧
    ((processShift punch_df config s).1).actual_in = none ∧
    ((processShift punch_df config s).1).actual_out = none ∧
    ((processShift punch_df config s).1).actual_out1 = none ∧
    ((processShift punch_df config s).1).actual_in2 = none := by
  rw [processShift_fst_eq]
  simp [hm, punchFacts]

theorem claim_C5_witness :
    ((processShift [] ⟨5, 15⟩ ⟨0, .AM, 585, 990⟩).1).present = false ∧
    ((processShift [] ⟨5, 15⟩ ⟨0, .AM, 585, 990⟩).1).tardy = false ∧
    ((processShift [] ⟨5, 15⟩ ⟨0, .AM, 585, 990⟩).1).early_dismissal = false ∧
    ((processShift [] ⟨5, 15⟩ ⟨0, .AM, 585, 990⟩).1).worked_minutes = 0 ∧
    ((processShift [] ⟨5, 15⟩ ⟨0, .AM, 585, 990⟩).1).actual_in = none ∧
    ((processShift [] ⟨5, 15⟩ ⟨0, .AM, 585, 990⟩).1).actual_out = none ∧
    ((processShift [] ⟨5, 15⟩ ⟨0, .AM, 585, 990⟩).1).actual_out1 = none ∧
    ((processShift [] ⟨5, 15⟩ ⟨0, .AM, 585, 990⟩).1).actual_in2 = none :=
  claim_C5 [] ⟨5, 15⟩ ⟨0, .AM, 585, 990⟩ rfl

/-- C4: for a shift with a matched punch carrying a clock-in, `tardy` holds
iff the clock-in is strictly later than `scheduled_start` plus the tardy
threshold (boundary equality is not tardy). -/
theorem claim_C4 (punch_df : List PunchRow) (config : PolicyConfig) (s : SchedRow)
    (pr : PunchRow) (tin : ℤ)
    (hh : (punch_df.filter fun q => decide (q.date = s.date)).head? = some pr)
    (h1 : pr.in1 = some tin) :
    (((processShift punch_df config s).1).tardy = true ↔
      s.sched_start_dt + config.tardy_minutes < tin) := by
  have ha : (punchFacts s.sched_start_dt s.sched_end_dt
      ((punch_df.filter fun q => decide (q.date = s.date)).head?)).actual_in = some tin := by
    rw [punchFacts_actual_in, hh]
    simpa using h1
  have hp : (punchFacts s.sched_start_dt s.sched_end_dt
      ((punch_df.filter fun q => decide (q.date = s.date)).head?)).present = true := by
    rw [punchFacts_present, hh]
    simp [h1]
  rw [processShift_fst_eq]
  dsimp only
  rw [ha, hp]
  simp

theorem claim_C4_witness :
    ((processShift [⟨0, some 590, none, none, some 990⟩] ⟨5, 15⟩ ⟨0, .AM, 585, 990⟩).1).tardy
      = false := by
  have h := claim_C4 [⟨0, some 590, none, none, some 990⟩] ⟨5, 15⟩ ⟨0, .AM, 585, 990⟩
    ⟨0, some 590, none, none, some 990⟩ 590 rfl rfl
  rcases Bool.eq_false_or_eq_true
      ((processShift [⟨0, some 590, none, none, some 990⟩] ⟨5, 15⟩
        ⟨0, .AM, 585, 990⟩).1).tardy with ht | hf
  · exact absurd (h.mp ht) (by decide)
  · exact hf

/-- C6: with several punch rows matching the date of a shift, the record is
computed from the first match in punch-table input order — the remaining
matches have no effect — and the duplicate warning for that date is
emitted; no error is raised. -/
theorem claim_C6 (punch_df : List PunchRow) (config : PolicyConfig) (s : SchedRow)
    (hd : PunchRow) (tl : List PunchRow)
    (hm : punch_df.filter (fun q => decide (q.date = s.date)) = hd :: tl)
    (hne : tl ≠ []) :
    (processShift punch_df config s).1 = (processShift [hd] config s).1 ∧
    (processShift punch_df config s).2 = [dupWarning s.date] := by
  have hmem : hd ∈ punch_df.filter (fun q => decide (q.date = s.date)) := by
    rw [hm]
    exact List.mem_cons_self _ _
  have hdate : hd.date = s.date := by
    have := (List.mem_filter.mp hmem).2
    simpa using this
  have hfilter1 : [hd].filter (fun q => decide (q.date = s.date)) = [hd] := by
    simp [List.filter, hdate]
  constructor
  · rw [processShift_fst_eq, processShift_fst_eq, hm, hfilter1]
    rfl
  · rw [processShift_snd_eq, hm]
    rcases tl with _ | ⟨t, ts⟩
    · exact absurd rfl hne
    · rw [if_pos (by simp)]

theorem claim_C6_witness :
    (processShift [⟨0, some 590, none, none, some 985⟩, ⟨0, some 600, none, none, some 700⟩]
        ⟨5, 15⟩ ⟨0, .AM, 585, 990⟩).1 =
      (processShift [⟨0, some 590, none, none, some 985⟩] ⟨5, 15⟩ ⟨0, .AM, 585, 990⟩).1 ∧
    (processShift [⟨0, some 590, none, none, some 985⟩, ⟨0, some 600, none, none, some 700⟩]
        ⟨5, 15⟩ ⟨0, .AM, 585, 990⟩).2 = [dupWarning 0] :=
  claim_C6 [⟨0, some 590, none, none, some 985⟩, ⟨0, some 600, none, none, some 700⟩]
    ⟨5, 15⟩ ⟨0, .AM, 585, 990⟩ ⟨0, some 590, none, none, some 985⟩
    [⟨0, some 600, none, none, some 700⟩] rfl (by simp)

/-- C7: `calculate_summary` is permutation-invariant — permuting the
DayRecord sequence yields the same Summary in every field. -/
theorem claim_C7 (l1 l2 : List DayRecord) (h : l1.Perm l2) :
    calculate_summary l1 = calculate_summary l2 := by
  rcases l1 with _ | ⟨a, l1t⟩
  · rw [(List.Perm.nil_eq h).symm]
  · rcases l2 with _ | ⟨b, l2t⟩
    · exact absurd h.symm (by simp [List.Perm.nil_eq, List.cons_ne_nil])
    · rw [calculate_summary_eq _ (List.cons_ne_nil a l1t),
        calculate_summary_eq _ (List.cons_ne_nil b l2t)]
      have hlen := h.length_eq
      have hcp := h.countP_eq fun r => r.present
      have hct := h.countP_eq fun r => r.tardy
      have hce := h.countP_eq fun r => r.early_dismissal
      have hss : ((a :: l1t).map fun r => r.sched_minutes).sum =
          ((b :: l2t).map fun r => r.sched_minutes).sum :=
        (h.map fun r => r.sched_minutes).sum_eq
      have hws : ((a :: l1t).map fun r => r.worked_minutes_clipped).sum =
          ((b :: l2t).map fun r => r.worked_minutes_clipped).sum :=
        (h.map fun r => r.worked_minutes_clipped).sum_eq
      rw [hlen, hcp, hct, hce, hss, hws]

theorem claim_C7_witness :
    calculate_summary
        [⟨0, .AM, 585, 990, some 590, some 985, none, none, 405, 395, 395, 79 / 81, true,
          false, false⟩,
         ⟨1, .AM, 2025, 2430, none, none, none, none, 405, 0, 0, 0, false, false, false⟩] =
      calculate_summary
        [⟨1, .AM, 2025, 2430, none, none, none, none, 405, 0, 0, 0, false, false, false⟩,
         ⟨0, .AM, 585, 990, some 590, some 985, none, none, 405, 395, 395, 79 / 81, true,
          false, false⟩] :=
  claim_C7 _ _ (List.Perm.swap _ _ _)

/-- C9: reconciliation stores the lunch clock-out (`actual_out1`) exactly as
it appears in the matched punch row — it is never advanced — while the
lunch clock-in (`actual_in2`) is advanced by one day on a cross-midnight
shift whose lunch clock-in time-of-day precedes the lunch clock-out
time-of-day. -/
theorem claim_C9 :
    (∀ (punch_df : List PunchRow) (config : PolicyConfig) (s : SchedRow),
      ((processShift punch_df config s).1).actual_out1 =
        ((punch_df.filter fun q => decide (q.date = s.date)).head?).bind fun q => q.out1) ∧
    (∀ (punch_df : List PunchRow) (config : PolicyConfig) (s : SchedRow) (pr : PunchRow)
        (tin tout tl1 tl2 : ℤ),
      (punch_df.filter fun q => decide (q.date = s.date)).head? = some pr →
      pr.in1 = some tin → pr.out2 = some tout →
      dayOf s.sched_start_dt < dayOf s.sched_end_dt →
      pr.out1 = some tl1 → pr.in2 = some tl2 →
      timeOf tl2 < timeOf tl1 →
      ((processShift punch_df config s).1).actual_in2 = some (tl2 + 1440)) := by
  constructor
  · intro punch_df config s
    rw [processShift_fst_eq]
    dsimp only
    exact punchFacts_actual_out1 _ _ _
  · intro punch_df config s pr tin tout tl1 tl2 hh h1 h2 hcm hl1 hl2 hlt
    rw [processShift_fst_eq]
    dsimp only
    rw [hh]
    simp [punchFacts, h1, h2, hl1, hl2, hcm, hlt]

theorem claim_C9_witness :
    ((processShift [⟨0, some 958, some 1430, some 20, some 10⟩] ⟨5, 15⟩
        ⟨0, .PM, 960, 1455⟩).1).actual_in2 = some (20 + 1440) :=
  claim_C9.2 [⟨0, some 958, some 1430, some 20, some 10⟩] ⟨5, 15⟩ ⟨0, .PM, 960, 1455⟩
    ⟨0, some 958, some 1430, some 20, some 10⟩ 958 10 1430 20 rfl rfl rfl (by decide)
    rfl rfl (by decide)

/-- C1 counterexample: for the PM shift scheduled 16:00 → next-day 00:15
with clock-in 15:58, clock-out recorded at time-of-day 00:10 and no lunch
pair, the code produces `worked_minutes = 492` (8 h 12 min), which is not
approximately 252 — it is 240 minutes away. -/
theorem claim_C1_counterexample :
    ((processShift [⟨0, some 958, none, none, some 10⟩] ⟨5, 15⟩
        ⟨0, .PM, 960, 1455⟩).1).worked_minutes = 492 ∧
    240 ≤ |((processShift [⟨0, some 958, none, none, some 10⟩] ⟨5, 15⟩
        ⟨0, .PM, 960, 1455⟩).1).worked_minutes - 252| := by
  have hw : ((processShift [⟨0, some 958, none, none, some 10⟩] ⟨5, 15⟩
      ⟨0, .PM, 960, 1455⟩).1).worked_minutes = 492 := by
    rw [processShift_fst_eq]
    dsimp only
    show (punchFacts 960 1455 (some ⟨0, some 958, none, none, some 10⟩)).worked_minutes = 492
    simp only [punchFacts]
    rw [if_pos (by decide)]
    norm_num
  refine ⟨hw, ?_⟩
  rw [hw]
  norm_num

/-- C1 (amended): for every cross-midnight shift whose matched punch has a
clock-in and a clock-out with numerically earlier time-of-day, the
clock-out is advanced by exactly one day; in particular, for the PM shift
scheduled 16:00 → next-day 00:15 with clock-in 15:58, raw clock-out
time-of-day 00:10 and no lunch pair, the normalized clock-out 00:10
next-day falls one calendar day after the clock-in and
`worked_minutes = 492` (not 252) before lunch subtraction. -/
theorem claim_C1_amended :
    (∀ (punch_df : List PunchRow) (config : PolicyConfig) (s : SchedRow) (pr : PunchRow)
        (tin tout : ℤ),
      (punch_df.filter fun q => decide (q.date = s.date)).head? = some pr →
      pr.in1 = some tin → pr.out2 = some tout →
      dayOf s.sched_start_dt < dayOf s.sched_end_dt →
      timeOf tout < timeOf tin →
      ((processShift punch_df config s).1).actual_out = some (tout + 1440)) ∧
    (((processShift [⟨0, some 958, none, none, some 10⟩] ⟨5, 15⟩
        ⟨0, .PM, 960, 1455⟩).1).actual_out = some 1450 ∧
      dayOf 1450 = dayOf 958 + 1 ∧
      ((processShift [⟨0, some 958, none, none, some 10⟩] ⟨5, 15⟩
        ⟨0, .PM, 960, 1455⟩).1).worked_minutes = 492) := by
  constructor
  · intro punch_df config s pr tin tout hh h1 h2 hcm hlt
    rw [processShift_fst_eq]
    dsimp only
    rw [hh]
    simp [punchFacts, h1, h2, hcm, hlt]
  · refine ⟨?_, by decide, ?_⟩
    · rw [processShift_fst_eq]
      dsimp only
      show (punchFacts 960 1455 (some ⟨0, some 958, none, none, some 10⟩)).actual_out = some 1450
      simp only [punchFacts]
      rw [if_pos (by decide)]
      norm_num
    · rw [processShift_fst_eq]
      dsimp only
      show (punchFacts 960 1455 (some ⟨0, some 958, none, none, some 10⟩)).worked_minutes = 492
      simp only [punchFacts]
      rw [if_pos (by decide)]
      norm_num

theorem claim_C1_amended_witness :
    ((processShift [⟨0, some 958, none, none, some 10⟩] ⟨5, 15⟩
        ⟨0, .PM, 960, 1455⟩).1).actual_out = some (10 + 1440) :=
  claim_C1_amended.1 [⟨0, some 958, none, none, some 10⟩] ⟨5, 15⟩ ⟨0, .PM, 960, 1455⟩
    ⟨0, some 958, none, none, some 10⟩ 958 10 rfl rfl rfl (by decide) (by decide)

/-- C8: for one present DayRecord with `worked_minutes_clipped = 400` and
`sched_minutes = 405` (tardy) plus one absent DayRecord with
`sched_minutes = 405`, `calculate_summary` yields `scheduled_shifts = 2`,
`shifts_worked = 1`, `attendance_pct_shifts = 50`, `scheduled_hours = 13.5`,
`worked_hours = 6.67` (rounded from the unrounded total 400/60),
`tardy_count = 1` (the number of tardy flags) and
`early_dismissal_count = 0`. -/
theorem claim_C8 :
    (calculate_summary
        [⟨0, .AM, 585, 990, some 590, some 990, none, none, 405, 400, 400, 80 / 81, true,
          true, false⟩,
         ⟨1, .AM, 2025, 2430, none, none, none, none, 405, 0, 0, 0, false, false, false⟩]).scheduled_shifts = 2 ∧
    (calculate_summary
        [⟨0, .AM, 585, 990, some 590, some 990, none, none, 405, 400, 400, 80 / 81, true,
          true, false⟩,
         ⟨1, .AM, 2025, 2430, none, none, none, none, 405, 0, 0, 0, false, false, false⟩]).shifts_worked = 1 ∧
    (calculate_summary
        [⟨0, .AM, 585, 990, some 590, some 990, none, none, 405, 400, 400, 80 / 81, true,
          true, false⟩,
         ⟨1, .AM, 2025, 2430, none, none, none, none, 405, 0, 0, 0, false, false, false⟩]).attendance_pct_shifts = 50 ∧
    (calculate_summary
        [⟨0, .AM, 585, 990, some 590, some 990, none, none, 405, 400, 400, 80 / 81, true,
          true, false⟩,
         ⟨1, .AM, 2025, 2430, none, none, none, none, 405, 0, 0, 0, false, false, false⟩]).scheduled_hours = 27 / 2 ∧
    (calculate_summary
        [⟨0, .AM, 585, 990, some 590, some 990, none, none, 405, 400, 400, 80 / 81, true,
          true, false⟩,
         ⟨1, .AM, 2025, 2430, none, none, none, none, 405, 0, 0, 0, false, false, false⟩]).worked_hours = 667 / 100 ∧
    (calculate_summary
        [⟨0, .AM, 585, 990, some 590, some 990, none, none, 405, 400, 400, 80 / 81, true,
          true, false⟩,
         ⟨1, .AM, 2025, 2430, none, none, none, none, 405, 0, 0, 0, false, false, false⟩]).tardy_count = 1 ∧
    (calculate_summary
        [⟨0, .AM, 585, 990, some 590, some 990, none, none, 405, 400, 400, 80 / 81, true,
          true, false⟩,
         ⟨1, .AM, 2025, 2430, none, none, none, none, 405, 0, 0, 0, false, false, false⟩]).early_dismissal_count = 0 := by
  rw [calculate_summary_eq _ (by simp)]
  have h50 : round2 50 = 50 := by
    have := round2_eq_of_lt_half 50 5000 (by norm_num) (by norm_num)
    rw [this]
    norm_num
  have h135 : round2 ((405 + (405 + 0)) / 60 : ℚ) = 27 / 2 := by
    have := round2_eq_of_lt_half ((405 + (405 + 0)) / 60 : ℚ) 1350 (by norm_num) (by norm_num)
    rw [this]
    norm_num
  have h667 : round2 ((400 + (0 + 0)) / 60 : ℚ) = 667 / 100 := by
    have := round2_eq_of_gt_half ((400 + (0 + 0)) / 60 : ℚ) 666 (by norm_num) (by norm_num)
      (by norm_num)
    rw [this]
    norm_num
  refine ⟨rfl, rfl, ?_, ?_, ?_, rfl, rfl⟩
  · dsimp only
    norm_num [List.countP, List.countP.go, h50]
  · dsimp only
    simp only [List.map, List.sum_cons, List.sum_nil]
    exact h135
  · dsimp only
    simp only [List.map, List.sum_cons, List.sum_nil]
    exact h667

/-- C10: for records built by `build_attendance` from shifts with
`scheduled_end > scheduled_start`, the Summary satisfies
`shifts_worked ≤ scheduled_shifts`, `tardy_count ≤ shifts_worked`,
`early_dismissal_count ≤ shifts_worked`, `worked_hours ≤ scheduled_hours`,
and both percentages lie in `[0, 100]`. -/
theorem claim_C10 (punch_df : List PunchRow) (schedule_df : List SchedRow)
    (config : PolicyConfig)
    (h : ∀ s ∈ schedule_df, s.sched_start_dt < s.sched_end_dt) :
    ((build_attendance punch_df schedule_df config).2.1).shifts_worked ≤
      ((build_attendance punch_df schedule_df config).2.1).scheduled_shifts ∧
    ((build_attendance punch_df schedule_df config).2.1).tardy_count ≤
      ((build_attendance punch_df schedule_df config).2.1).shifts_worked ∧
    ((build_attendance punch_df schedule_df config).2.1).early_dismissal_count ≤
      ((build_attendance punch_df schedule_df config).2.1).shifts_worked ∧
    ((build_attendance punch_df schedule_df config).2.1).worked_hours ≤
      ((build_attendance punch_df schedule_df config).2.1).scheduled_hours ∧
    0 ≤ ((build_attendance punch_df schedule_df config).2.1).attendance_pct_shifts ∧
    ((build_attendance punch_df schedule_df config).2.1).attendance_pct_shifts ≤ 100 ∧
    0 ≤ ((build_attendance punch_df schedule_df config).2.1).attendance_pct_hours ∧
    ((build_attendance punch_df schedule_df config).2.1).attendance_pct_hours ≤ 100 := by
  have hb : (build_attendance punch_df schedule_df config).2.1 =
      calculate_summary (schedule_df.map fun sr => (processShift punch_df config sr).1) := rfl
  rw [hb]
  set records := schedule_df.map fun sr => (processShift punch_df config sr).1 with hrec
  have hty : ∀ r ∈ records, r.tardy = true → r.present = true := by
    intro r hr hflag
    rw [hrec] at hr
    rcases List.mem_map.mp hr with ⟨sr, _, rfl⟩
    exact processShift_tardy_imp_present _ _ _ hflag
  have hey : ∀ r ∈ records, r.early_dismissal = true → r.present = true := by
    intro r hr hflag
    rw [hrec] at hr
    rcases List.mem_map.mp hr with ⟨sr, _, rfl⟩
    exact processShift_early_imp_present _ _ _ hflag
  have hw0 : ∀ r ∈ records, 0 ≤ r.worked_minutes_clipped := by
    intro r hr
    rw [hrec] at hr
    rcases List.mem_map.mp hr with ⟨sr, _, rfl⟩
    exact processShift_wmc_nonneg _ _ _
  have hws : ∀ r ∈ records, r.worked_minutes_clipped ≤ r.sched_minutes := by
    intro r hr
    rw [hrec] at hr
    rcases List.mem_map.mp hr with ⟨sr, hsr, rfl⟩
    exact processShift_wmc_le _ _ _ (h sr hsr)
  by_cases hnil : records = []
  · rw [hnil, calculate_summary_nil]
    exact ⟨le_refl 0, le_refl 0, le_refl 0, le_refl 0, le_refl 0, by norm_num, le_refl 0,
      by norm_num⟩
  · rw [calculate_summary_eq records hnil]
    dsimp only
    have hsum : (records.map fun r => r.worked_minutes_clipped).sum ≤
        (records.map fun r => r.sched_minutes).sum := List.sum_le_sum hws
    have hsum0 : 0 ≤ (records.map fun r => r.worked_minutes_clipped).sum := by
      apply List.sum_nonneg
      intro x hx
      rcases List.mem_map.mp hx with ⟨r, hr, rfl⟩
      exact hw0 r hr
    refine ⟨List.countP_le_length _, List.countP_mono_left hty, List.countP_mono_left hey,
      round2_mono (by linarith), ?_, ?_, ?_, ?_⟩
    · apply round2_nonneg
      split_ifs with hpos
      · positivity
      · exact le_refl 0
    · apply round2_le_hundred
      split_ifs with hpos
      · have hc : ((records.countP (fun r => r.present) : ℕ) : ℚ) ≤
            ((records.length : ℕ) : ℚ) := by
          exact_mod_cast List.countP_le_length (fun r : DayRecord => r.present)
        have hl : (0 : ℚ) < ((records.length : ℕ) : ℚ) := by exact_mod_cast hpos
        have hdiv : ((records.countP (fun r => r.present) : ℕ) : ℚ) /
            ((records.length : ℕ) : ℚ) ≤ 1 := (div_le_one hl).mpr hc
        linarith
      · norm_num
    · apply round2_nonneg
      split_ifs with hpos
      · exact mul_nonneg (div_nonneg (by linarith) hpos.le) (by norm_num)
      · exact le_refl 0
    · apply round2_le_hundred
      split_ifs with hpos
      · have hW : (records.map fun r => r.worked_minutes_clipped).sum / 60 ≤
            (records.map fun r => r.sched_minutes).sum / 60 := by linarith
        have hdiv : ((records.map fun r => r.worked_minutes_clipped).sum / 60) /
            ((records.map fun r => r.sched_minutes).sum / 60) ≤ 1 := (div_le_one hpos).mpr hW
        have h0 : 0 ≤ ((records.map fun r => r.worked_minutes_clipped).sum / 60) /
            ((records.map fun r => r.sched_minutes).sum / 60) :=
          div_nonneg (by linarith) hpos.le
        linarith
      · norm_num

theorem claim_C10_witness :
    ((build_attendance [] [⟨0, .AM, 585, 990⟩] ⟨5, 15⟩).2.1).shifts_worked ≤
      ((build_attendance [] [⟨0, .AM, 585, 990⟩] ⟨5, 15⟩).2.1).scheduled_shifts ∧
    ((build_attendance [] [⟨0, .AM, 585, 990⟩] ⟨5, 15⟩).2.1).tardy_count ≤
      ((build_attendance [] [⟨0, .AM, 585, 990⟩] ⟨5, 15⟩).2.1).shifts_worked ∧
    ((build_attendance [] [⟨0, .AM, 585, 990⟩] ⟨5, 15⟩).2.1).early_dismissal_count ≤
      ((build_attendance [] [⟨0, .AM, 585, 990⟩] ⟨5, 15⟩).2.1).shifts_worked ∧
    ((build_attendance [] [⟨0, .AM, 585, 990⟩] ⟨5, 15⟩).2.1).worked_hours ≤
      ((build_attendance [] [⟨0, .AM, 585, 990⟩] ⟨5, 15⟩).2.1).scheduled_hours ∧
    0 ≤ ((build_attendance [] [⟨0, .AM, 585, 990⟩] ⟨5, 15⟩).2.1).attendance_pct_shifts ∧
    ((build_attendance [] [⟨0, .AM, 585, 990⟩] ⟨5, 15⟩).2.1).attendance_pct_shifts ≤ 100 ∧
    0 ≤ ((build_attendance [] [⟨0, .AM, 585, 990⟩] ⟨5, 15⟩).2.1).attendance_pct_hours ∧
    ((build_attendance [] [⟨0, .AM, 585, 990⟩] ⟨5, 15⟩).2.1).attendance_pct_hours ≤ 100 :=
  claim_C10 [] [⟨0, .AM, 585, 990⟩] ⟨5, 15⟩ (by
    intro s hs
    rw [List.mem_singleton] at hs
    subst hs
    decide)
